import Mathlib

/-!
Shallow embedding of the message-exchange core of the web-chat application:
the `sendMessage` handler (src/server/src/handlers/send_message.ts), the
`getRecentMessages` handler, and the zod input schema (`sendMessageInputSchema`).

Ambient effects are made explicit:
  * the process environment and the single outbound HTTP call are captured in a
    `World` value (test-mode flag, `OPENAI_API_KEY`, the fetch outcome, and
    whether each of the two database inserts succeeds, plus the timestamps the
    database would assign);
  * the database `messages` table is a `Store` (list of rows plus the next
    serial id);
  * JavaScript exceptions are `Except Err`.
-/

namespace WebChat

/-- A row of the `messages` table (src/unnamed/part_002): serial `id`,
`content`, `role` (`"user"` or `"assistant"`), `created_at` timestamp. -/
structure Message where
  id : Nat
  content : String
  role : String
  created_at : Nat
deriving DecidableEq

/-- `SendMessageInput` from the schema file: `{ content: string }`. -/
structure SendMessageInput where
  content : String
deriving DecidableEq

/-- `ChatResponse` from the schema file: `{ userMessage, botResponse }`. -/
structure ChatResponse where
  userMessage : Message
  botResponse : Message
deriving DecidableEq

/-- LangChain-style `BaseMessage`: `content` plus the tag returned by
`_getType()` (`"human"` for `HumanMessage`, `"ai"` for `AIMessage`). -/
structure BaseMessage where
  content : String
  msgType : String
deriving DecidableEq

/-- The `message` object inside one OpenAI completion choice. -/
structure ChoiceMessage where
  content : String
deriving DecidableEq

/-- One element of `data.choices`; `message` is `none` when the field is
absent from the JSON payload. -/
structure Choice where
  msg : Option ChoiceMessage
deriving DecidableEq

/-- The parsed JSON body of the provider response; `choices` is `none` when
the field is absent. -/
structure OpenAIResponse where
  choices : Option (List Choice)
deriving DecidableEq

/-- Outcome of the single `fetch` to the completions endpoint:
`netError` = the promise rejects (network failure); `response ok data` = an
HTTP response arrives with `response.ok = ok` and parsed body `data`. -/
inductive FetchOutcome where
  | netError : FetchOutcome
  | response : Bool → OpenAIResponse → FetchOutcome
deriving DecidableEq

/-- JavaScript exceptions thrown by the embedded code, by their fixed
`Error` message. -/
inductive Err where
  | validationError : String → Err
  | configurationError : Err
  | persistenceError : Err
  | typeError : Err
deriving DecidableEq

/-- The ambient world of one `sendMessage` request. -/
structure World where
  testMode : Bool
  apiKey : Option String
  fetch : FetchOutcome
  userWriteOk : Bool
  botWriteOk : Bool
  time1 : Nat
  time2 : Nat
deriving DecidableEq

/-- The `messages` table plus the next serial id. -/
structure Store where
  msgs : List Message
  nextId : Nat
deriving DecidableEq

/-- JavaScript falsiness of an environment variable: absent or empty. -/
def envFalsy : Option String → Bool
  | none => true
  | some s => s.isEmpty

/-- The payload check of send_message.ts line 104: the parsed body lacks
`choices`, `choices[0]`, or `choices[0].message`. -/
def invalidPayload (data : OpenAIResponse) : Bool :=
  match data.choices with
  | none => true
  | some [] => true
  | some (c :: _) => c.msg.isNone

/-- A transport-level or payload-level provider failure: the fetch rejects,
the status is not 2xx, or the body lacks `choices[0].message`. -/
def providerFailure : FetchOutcome → Bool
  | .netError => true
  | .response ok data => !ok || invalidPayload data

/-- The deterministic test-mode reply built from the last message's content
(send_message.ts line 74). -/
def testReply (c : String) : String :=
  "AI Response: I received your message \"" ++ c ++ "\". This is a test response."

/-- The deterministic fallback reply built from the last message's content
(send_message.ts line 115). -/
def fallbackReply (c : String) : String :=
  "AI Response: I received your message \"" ++ c ++ "\". (Fallback response due to API error)"

/-- `ChatOpenAI.invoke` (send_message.ts lines 69-118). Returns the result
together with the number of network calls performed. In test mode the reply is
built locally; otherwise one fetch is issued, and every error raised inside the
`try` (non-2xx throw, invalid-format throw, rejected fetch) is caught and turned
into the fallback reply. Reading `messages[messages.length - 1]` of an empty
list yields `undefined`, and the subsequent `.content` access throws a
`TypeError`; this happens in the test-mode branch and in the catch block. -/
def chatInvoke (w : World) (messages : List BaseMessage) :
    Except Err BaseMessage × Nat :=
  if w.testMode then
    match messages.getLast? with
    | none => (.error .typeError, 0)
    | some lastMessage => (.ok ⟨testReply lastMessage.content, "ai"⟩, 0)
  else
    match w.fetch with
    | .response true data =>
        match data.choices with
        | some (choice :: _) =>
            match choice.msg with
            | some m => (.ok ⟨m.content, "ai"⟩, 1)
            | none =>
                match messages.getLast? with
                | none => (.error .typeError, 1)
                | some lastMessage => (.ok ⟨fallbackReply lastMessage.content, "ai"⟩, 1)
        | _ =>
            match messages.getLast? with
            | none => (.error .typeError, 1)
            | some lastMessage => (.ok ⟨fallbackReply lastMessage.content, "ai"⟩, 1)
    | _ =>
        match messages.getLast? with
        | none => (.error .typeError, 1)
        | some lastMessage => (.ok ⟨fallbackReply lastMessage.content, "ai"⟩, 1)

/-- The source's `initializeChatOpenAI` (send_message.ts lines 178-191): if
`OPENAI_API_KEY` is falsy and we are not in a test environment, throw
`'OPENAI_API_KEY environment variable is not set'`; otherwise construct the
client. -/
def initChatOpenAI (w : World) : Except Err Unit :=
  if envFalsy w.apiKey && !w.testMode then .error .configurationError
  else .ok ()

/-- `callModel` (send_message.ts lines 193-209): initialize the client and
invoke it; in the catch, an error whose message contains
`'OPENAI_API_KEY environment variable is not set'` (exactly the
`configurationError`) is re-thrown, every other error becomes an apology
message. -/
def callModel (w : World) (msgs : List BaseMessage) :
    Except Err (List BaseMessage) × Nat :=
  let step : Except Err BaseMessage × Nat :=
    match initChatOpenAI w with
    | .error e => (.error e, 0)
    | .ok _ => chatInvoke w msgs
  match step with
  | (.ok ai, n) => (.ok [ai], n)
  | (.error e, n) =>
      if e = .configurationError then (.error e, n)
      else (.ok [⟨"I apologize, but I could not process that request. (Error: TypeError)", "ai"⟩], n)

/-- The compiled chat graph's `invoke` (send_message.ts lines 149-175) applied
to the single registered node `call_model`: run the node on the state, then
merge by appending the node's returned messages to the state's messages. -/
def chatGraphInvoke (w : World) (stateMessages : List BaseMessage) :
    Except Err (List BaseMessage) × Nat :=
  match callModel w stateMessages with
  | (.error e, n) => (.error e, n)
  | (.ok result, n) => (.ok (stateMessages ++ result), n)

/-- `db.insert(messagesTable).values({content, role}).returning()`: on success
append a fresh row (serial id, given timestamp) and return it; on storage
failure throw. -/
def dbInsert (ok : Bool) (s : Store) (content role : String) (time : Nat) :
    Except Err (Message × Store) :=
  if ok then
    let m : Message := ⟨s.nextId, content, role, time⟩
    .ok (m, ⟨s.msgs ++ [m], s.nextId + 1⟩)
  else .error .persistenceError

/-- The initial graph state built by `sendMessage` (lines 240-247): a single
`HumanMessage` holding the current input; no prior store contents are loaded. -/
def pipelineHistory (input : SendMessageInput) : List BaseMessage :=
  [⟨input.content, "human"⟩]

deriving instance DecidableEq for Except

/-- Observable outcome of one `sendMessage` call: the returned value or thrown
error, the final store, the number of network calls, and the number of
orchestrator (chat-graph) invocations. -/
structure SendOutcome where
  result : Except Err ChatResponse
  store : Store
  netCalls : Nat
  orchCalls : Nat
deriving DecidableEq

/-- The bot content extraction of send_message.ts lines 252-256: filter the
merged state for AI messages, take the last one, and substitute an apology
when it is absent or its content is falsy (the empty string, per
`lastAiMessage?.content || '...'`). -/
def botReplyContent (merged : List BaseMessage) : String :=
  match (merged.filter (fun m => m.msgType == "ai")).getLast? with
  | some m =>
      if m.content = "" then "I apologize, but I could not generate a response."
      else m.content
  | none => "I apologize, but I could not generate a response."

/-- `sendMessage` (send_message.ts lines 227-287): insert the user message,
build the one-message graph state, invoke the compiled graph, take the last
AI message of the merged state (substituting an apology when it is absent or
its content is the empty string, per `lastAiMessage?.content || ...`), insert
the bot message, and return both rows. Errors are logged and re-thrown. -/
def sendMessage (w : World) (s : Store) (input : SendMessageInput) : SendOutcome :=
  match dbInsert w.userWriteOk s input.content "user" w.time1 with
  | .error e => ⟨.error e, s, 0, 0⟩
  | .ok (userMessage, s1) =>
    match chatGraphInvoke w (pipelineHistory input) with
    | (.error e, n) => ⟨.error e, s1, n, 1⟩
    | (.ok merged, n) =>
      match dbInsert w.botWriteOk s1 (botReplyContent merged) "assistant" w.time2 with
      | .error e => ⟨.error e, s1, n, 1⟩
      | .ok (botMessage, s2) => ⟨.ok ⟨userMessage, botMessage⟩, s2, n, 1⟩

/-- `sendMessageInputSchema` (the zod schema in the shared schema file):
`z.string().min(1, 'Message content cannot be empty').max(1000, 'Message too long')`.
No trimming is applied before the length checks. -/
def sendMessageInputSchema (content : String) : Except Err SendMessageInput :=
  if content.length < 1 then .error (.validationError "Message content cannot be empty")
  else if content.length > 1000 then .error (.validationError "Message too long")
  else .ok ⟨content⟩

/-- Modelled from the spec: the service boundary (the tRPC router wiring, not
under src/) parses the request body with `sendMessageInputSchema` before
invoking the `sendMessage` handler; on validation failure the handler is never
called and nothing is written. -/
def sendTurn (w : World) (s : Store) (content : String) : SendOutcome :=
  match sendMessageInputSchema content with
  | .error e => ⟨.error e, s, 0, 0⟩
  | .ok input => sendMessage w s input

/-- The ordering used by `orderBy(desc(messagesTable.created_at))`:
newest first. -/
def newerFirst (a b : Message) : Prop := b.created_at ≤ a.created_at

instance : DecidableRel newerFirst := fun a b => Nat.decLe b.created_at a.created_at

instance : IsTotal Message newerFirst :=
  ⟨fun a b => (Nat.le_total a.created_at b.created_at).symm⟩

instance : IsTrans Message newerFirst :=
  ⟨fun _ _ _ hab hbc => Nat.le_trans hbc hab⟩

/-- `getRecentMessages` (the second handler): select all rows ordered by
`created_at` descending, limited to `limit`. The query is read-only, so the
store is returned unchanged. -/
def getRecentMessages (limit : Nat) (s : Store) : List Message × Store :=
  ((s.msgs.insertionSort newerFirst).take limit, s)

/-- `getRecentMessages` called without an argument: the parameter defaults
to 50 in the source (`limit: number = 50`). -/
def getRecentMessagesDefault (s : Store) : List Message × Store :=
  getRecentMessages 50 s

/-- JavaScript `String.prototype.trim`, as the client calls it on the input
box content (`message.trim()` in the chat-input component): strip leading and
trailing whitespace. -/
def jsTrim (s : String) : String :=
  ⟨((s.data.dropWhile Char.isWhitespace).reverse.dropWhile Char.isWhitespace).reverse⟩

/-- A world in test mode (the Bun test runner sets the test environment). -/
def testWorld : World := ⟨true, none, .netError, true, true, 0, 1⟩

/-- A non-test world with `OPENAI_API_KEY` unset. -/
def noKeyWorld : World := ⟨false, none, .netError, true, true, 0, 1⟩

/-- A non-test world with a key set whose provider answers 200 with a JSON
body that has no `choices` field. -/
def invalidPayloadWorld : World :=
  ⟨false, some "sk-test", .response true ⟨none⟩, true, true, 0, 1⟩

/-- An empty `messages` table. -/
def emptyStore : Store := ⟨[], 0⟩

/-! ### Helper lemmas -/

theorem exists_getLast?_of_ne_nil {α : Type} (l : List α) (h : l ≠ []) :
    ∃ a, l.getLast? = some a :=
  ⟨l.getLast h, List.getLast?_eq_getLast l h⟩

/-- In every branch, `chatInvoke` issues at most one network call. -/
theorem chatInvoke_net_le (w : World) (msgs : List BaseMessage) :
    (chatInvoke w msgs).2 ≤ 1 := by
  unfold chatInvoke
  repeat' split
  all_goals simp

/-- On a non-empty history, `chatInvoke` never throws: it returns an AI
message, with at most one network call. -/
theorem chatInvoke_ok_of_ne_nil (w : World) (msgs : List BaseMessage)
    (hne : msgs ≠ []) :
    ∃ ai n, chatInvoke w msgs = (.ok ai, n) ∧ ai.msgType = "ai" ∧ n ≤ 1 := by
  obtain ⟨l, hl⟩ := exists_getLast?_of_ne_nil msgs hne
  unfold chatInvoke
  rw [hl]
  repeat' split
  all_goals simp_all
  all_goals exact ⟨_, _, ⟨rfl, rfl⟩, rfl, by omega⟩

/-- On a non-empty history and with the credential check passing (test mode,
or a non-falsy key), `callModel` returns a singleton AI-message list. -/
theorem callModel_ok (w : World) (msgs : List BaseMessage)
    (hne : msgs ≠ []) (hk : w.testMode = true ∨ envFalsy w.apiKey = false) :
    ∃ ai n, callModel w msgs = (.ok [ai], n) ∧ ai.msgType = "ai" ∧ n ≤ 1 := by
  obtain ⟨ai, n, hinv, hai, hn⟩ := chatInvoke_ok_of_ne_nil w msgs hne
  have hinit : initChatOpenAI w = .ok () := by
    unfold initChatOpenAI
    rcases hk with h | h <;> simp [h]
  refine ⟨ai, n, ?_, hai, hn⟩
  unfold callModel
  rw [hinit]
  simp [hinv]

/-- Composition of `callModel` with the graph merge step. -/
theorem chatGraphInvoke_ok (w : World) (msgs : List BaseMessage)
    (hne : msgs ≠ []) (hk : w.testMode = true ∨ envFalsy w.apiKey = false) :
    ∃ ai n, chatGraphInvoke w msgs = (.ok (msgs ++ [ai]), n) ∧
      ai.msgType = "ai" ∧ n ≤ 1 := by
  obtain ⟨ai, n, hcm, hai, hn⟩ := callModel_ok w msgs hne hk
  exact ⟨ai, n, by unfold chatGraphInvoke; rw [hcm], hai, hn⟩

/-- `chatGraphInvoke` issues at most one network call. -/
theorem chatGraphInvoke_net_le (w : World) (msgs : List BaseMessage) :
    (chatGraphInvoke w msgs).2 ≤ 1 := by
  have h := chatInvoke_net_le w msgs
  unfold chatGraphInvoke callModel
  rcases hi : initChatOpenAI w with e | u
  · by_cases he : e = Err.configurationError <;> simp [he]
  · rcases hc : chatInvoke w msgs with ⟨r, n⟩
    rw [hc] at h
    rcases r with e | a
    · by_cases he : e = Err.configurationError <;> simp [he, h]
    · simp [h]

/-- When both inserts succeed and the credential check passes, `sendMessage`
returns the inserted user row and a bot row, appending exactly those two rows
to the store, with at most one network call and one orchestrator call. -/
theorem sendMessage_success (w : World) (s : Store) (input : SendMessageInput)
    (hu : w.userWriteOk = true) (hb : w.botWriteOk = true)
    (hk : w.testMode = true ∨ envFalsy w.apiKey = false) :
    ∃ bc n, n ≤ 1 ∧
      sendMessage w s input =
        ⟨.ok ⟨⟨s.nextId, input.content, "user", w.time1⟩,
              ⟨s.nextId + 1, bc, "assistant", w.time2⟩⟩,
         ⟨s.msgs ++ [⟨s.nextId, input.content, "user", w.time1⟩,
                     ⟨s.nextId + 1, bc, "assistant", w.time2⟩], s.nextId + 2⟩,
         n, 1⟩ := by
  obtain ⟨ai, n, hg, hai, hn⟩ :=
    chatGraphInvoke_ok w (pipelineHistory input) (by simp [pipelineHistory]) hk
  refine ⟨botReplyContent (pipelineHistory input ++ [ai]), n, hn, ?_⟩
  unfold sendMessage
  simp only [dbInsert, hu, hb, if_true]
  rw [hg]
  simp [pipelineHistory]

/-! ### The claims -/

/-- C1 (counterexample): the claim says the first returned message's content
equals the trimmed input; the handler stores the input untrimmed, so on the
valid 4-character input `" hi "` the stored content keeps its whitespace and
differs from the trimmed input `"hi"`. -/
theorem c1_trimmed_content_cex :
    (sendTurn testWorld emptyStore " hi ").result.map
        (fun r => (r.userMessage.content, r.userMessage.role, r.botResponse.role)) =
      .ok (" hi ", "user", "assistant") ∧
    jsTrim " hi " = "hi" ∧ (" hi " : String) ≠ "hi" := by
  decide

/-- C1 (amended): for every valid content (1 to 1000 characters), with both
store writes succeeding and the credential check passing, `sendTurn` returns
exactly two messages and appends exactly them to the store: the first with
role `"user"` and content equal to the input exactly as provided (no trimming
is applied), the second with role `"assistant"`. -/
theorem c1_send_two_messages (w : World) (s : Store) (content : String)
    (h1 : 1 ≤ content.length) (h2 : content.length ≤ 1000)
    (hu : w.userWriteOk = true) (hb : w.botWriteOk = true)
    (hk : w.testMode = true ∨ envFalsy w.apiKey = false) :
    ∃ r : ChatResponse,
      (sendTurn w s content).result = .ok r ∧
      r.userMessage.role = "user" ∧
      r.userMessage.content = content ∧
      r.botResponse.role = "assistant" ∧
      (sendTurn w s content).store.msgs = s.msgs ++ [r.userMessage, r.botResponse] := by
  obtain ⟨bc, n, hn, hsm⟩ := sendMessage_success w s ⟨content⟩ hu hb hk
  have hv : sendMessageInputSchema content = .ok ⟨content⟩ := by
    unfold sendMessageInputSchema
    rw [if_neg (by omega), if_neg (by omega)]
  unfold sendTurn
  simp only [hv, hsm]
  exact ⟨_, rfl, rfl, rfl, rfl, rfl⟩

theorem c1_send_two_messages_witness :
    ∃ r : ChatResponse,
      (sendTurn testWorld emptyStore "Hello").result = .ok r ∧
      r.userMessage.role = "user" ∧
      r.userMessage.content = "Hello" ∧
      r.botResponse.role = "assistant" ∧
      (sendTurn testWorld emptyStore "Hello").store.msgs =
        emptyStore.msgs ++ [r.userMessage, r.botResponse] :=
  c1_send_two_messages testWorld emptyStore "Hello" (by decide) (by decide)
    rfl rfl (Or.inl rfl)

/-- C2 (counterexample): the claim says no messages are persisted when the
credential is absent outside test mode; the handler inserts the user message
before the orchestrator throws, so the store grows by one row even though the
call fails with the configuration error and makes no network attempt. -/
theorem c2_no_persist_cex :
    (sendTurn noKeyWorld emptyStore "hi").result = .error .configurationError ∧
    (sendTurn noKeyWorld emptyStore "hi").netCalls = 0 ∧
    (sendTurn noKeyWorld emptyStore "hi").store.msgs.length = 1 := by
  decide

/-- C2 (amended): with the provider credential falsy and test mode disabled,
`sendTurn` on valid content fails with the configuration error and performs no
network attempt, but the user message has already been persisted: the store
grows by exactly that one row and no assistant row. -/
theorem c2_config_error_one_row (w : World) (s : Store) (content : String)
    (h1 : 1 ≤ content.length) (h2 : content.length ≤ 1000)
    (htm : w.testMode = false) (hkey : envFalsy w.apiKey = true)
    (hu : w.userWriteOk = true) :
    (sendTurn w s content).result = .error .configurationError ∧
    (sendTurn w s content).netCalls = 0 ∧
    (sendTurn w s content).store.msgs =
      s.msgs ++ [⟨s.nextId, content, "user", w.time1⟩] := by
  have hv : sendMessageInputSchema content = .ok ⟨content⟩ := by
    unfold sendMessageInputSchema
    rw [if_neg (by omega), if_neg (by omega)]
  have hg : chatGraphInvoke w (pipelineHistory ⟨content⟩) =
      (.error .configurationError, 0) := by
    unfold chatGraphInvoke callModel initChatOpenAI
    simp [htm, hkey]
  unfold sendTurn
  simp only [hv]
  unfold sendMessage
  simp only [dbInsert, hu, if_true, hg]
  exact ⟨trivial, trivial, trivial⟩

theorem c2_config_error_one_row_witness :
    (sendTurn noKeyWorld emptyStore "hey").result = .error .configurationError ∧
    (sendTurn noKeyWorld emptyStore "hey").netCalls = 0 ∧
    (sendTurn noKeyWorld emptyStore "hey").store.msgs =
      emptyStore.msgs ++ [⟨emptyStore.nextId, "hey", "user", noKeyWorld.time1⟩] :=
  c2_config_error_one_row noKeyWorld emptyStore "hey" (by decide) (by decide)
    rfl rfl rfl

/-- C3 (counterexample): the claim says a transport-well-formed response
missing the completion field makes the call fail with a propagated
invalid-response error; on a 200 response with no `choices` field the call
instead returns the fallback reply successfully. -/
theorem c3_invalid_response_cex :
    chatInvoke invalidPayloadWorld [⟨"hi", "human"⟩] =
      (.ok ⟨fallbackReply "hi", "ai"⟩, 1) ∧
    invalidPayload ⟨none⟩ = true := by
  decide

/-- C3 (amended): on a 200 response whose payload lacks `choices`,
`choices[0]`, or `choices[0].message`, the invalid-format error is raised but
immediately caught by the same call's catch block and converted into the
deterministic fallback reply; it does not propagate to the caller. -/
theorem c3_invalid_response_fallback (w : World) (data : OpenAIResponse)
    (msgs : List BaseMessage) (l : BaseMessage)
    (htm : w.testMode = false) (hf : w.fetch = .response true data)
    (hinv : invalidPayload data = true) (hl : msgs.getLast? = some l) :
    chatInvoke w msgs = (.ok ⟨fallbackReply l.content, "ai"⟩, 1) := by
  unfold chatInvoke
  rw [htm, hf]
  unfold invalidPayload at hinv
  rcases hc : data.choices with _ | ⟨_ | ⟨c, rest⟩⟩
  · simp [hc, hl]
  · simp [hc, hl]
  · rw [hc] at hinv
    simp only at hinv
    rcases hm : c.msg with _ | m
    · simp [hc, hm, hl]
    · rw [hm] at hinv
      simp at hinv

theorem c3_invalid_response_fallback_witness :
    chatInvoke invalidPayloadWorld [⟨"ping", "human"⟩] =
      (.ok ⟨fallbackReply "ping", "ai"⟩, 1) :=
  c3_invalid_response_fallback invalidPayloadWorld ⟨none⟩ [⟨"ping", "human"⟩]
    ⟨"ping", "human"⟩ rfl rfl rfl (by decide)

/-- C4: on every transport or provider failure — rejected fetch, non-2xx
status, or invalid payload — `chatInvoke` does not propagate the failure: it
returns, with exactly one network attempt, the deterministic fallback string
that echoes the last message's content and is annotated as a fallback. -/
theorem c4_fallback_on_failure (w : World) (msgs : List BaseMessage)
    (l : BaseMessage) (htm : w.testMode = false)
    (hf : providerFailure w.fetch = true) (hl : msgs.getLast? = some l) :
    chatInvoke w msgs = (.ok ⟨fallbackReply l.content, "ai"⟩, 1) ∧
    fallbackReply l.content =
      "AI Response: I received your message \"" ++ l.content ++
        "\". (Fallback response due to API error)" := by
  refine ⟨?_, rfl⟩
  unfold chatInvoke
  rw [htm]
  rcases hfe : w.fetch with _ | ⟨ok, data⟩
  · simp [hl]
  · rw [hfe] at hf
    unfold providerFailure at hf
    rcases ok
    · simp [hl]
    · simp only [Bool.not_true, Bool.false_or] at hf
      unfold invalidPayload at hf
      rcases hc : data.choices with _ | ⟨_ | ⟨c, rest⟩⟩
      · simp [hc, hl]
      · simp [hc, hl]
      · rw [hc] at hf
        simp only at hf
        rcases hm : c.msg with _ | m
        · simp [hc, hm, hl]
        · rw [hm] at hf
          simp at hf

theorem c4_fallback_on_failure_witness :
    chatInvoke noKeyWorld [⟨"hello", "human"⟩] =
      (.ok ⟨fallbackReply "hello", "ai"⟩, 1) :=
  (c4_fallback_on_failure noKeyWorld [⟨"hello", "human"⟩] ⟨"hello", "human"⟩
    rfl rfl (by decide)).1

/-- C5: in test mode, on every non-empty history, `chatInvoke` performs zero
network calls and returns the deterministic placeholder derived from the last
message's content; the reply is a fixed function of that content and contains
it verbatim. -/
theorem c5_test_mode_reply (w : World) (msgs : List BaseMessage)
    (l : BaseMessage) (htm : w.testMode = true) (hl : msgs.getLast? = some l) :
    chatInvoke w msgs = (.ok ⟨testReply l.content, "ai"⟩, 0) ∧
    testReply l.content =
      "AI Response: I received your message \"" ++ l.content ++
        "\". This is a test response." := by
  refine ⟨?_, rfl⟩
  unfold chatInvoke
  simp [htm, hl]

theorem c5_test_mode_reply_witness :
    chatInvoke testWorld [⟨"Hello, how are you?", "human"⟩] =
      (.ok ⟨testReply "Hello, how are you?", "ai"⟩, 0) :=
  (c5_test_mode_reply testWorld [⟨"Hello, how are you?", "human"⟩]
    ⟨"Hello, how are you?", "human"⟩ rfl (by decide)).1

/-- A successful `dbInsert` appends exactly one fresh row. -/
theorem dbInsert_ok_eq {ok : Bool} {s : Store} {content role : String}
    {time : Nat} {m : Message} {s' : Store}
    (h : dbInsert ok s content role time = .ok (m, s')) :
    m = ⟨s.nextId, content, role, time⟩ ∧
    s' = ⟨s.msgs ++ [m], s.nextId + 1⟩ := by
  unfold dbInsert at h
  split at h
  · simp only [Except.ok.injEq, Prod.mk.injEq] at h
    obtain ⟨hm, hs⟩ := h
    subst hm
    exact ⟨rfl, hs.symm⟩
  · cases h

/-- C6: for every store and every limit, `getRecentMessages` returns at most
`limit` rows, sorted non-increasingly by `created_at` (newest first);
`limit = 0` yields the empty list; the omitted limit defaults to 50; and the
store is returned unchanged (the query is read-only). -/
theorem c6_get_recent (s : Store) (limit : Nat) :
    (getRecentMessages limit s).1.length ≤ limit ∧
    (getRecentMessages 0 s).1 = [] ∧
    List.Sorted newerFirst (getRecentMessages limit s).1 ∧
    getRecentMessagesDefault s = getRecentMessages 50 s ∧
    (getRecentMessages limit s).2 = s := by
  refine ⟨?_, rfl, ?_, rfl, rfl⟩
  · simp only [getRecentMessages, List.length_take]
    exact min_le_left _ _
  · exact List.Pairwise.sublist (List.take_sublist _ _)
      (List.sorted_insertionSort newerFirst s.msgs)

/-- C7: every `sendMessage` invocation performs at most one provider call and
at most two store writes — exactly two when it returns successfully; if the
user-message insert fails, the store is untouched (in particular no assistant
row is written) and the orchestrator is never invoked; and when validation
fails, `sendTurn` writes nothing, never invokes the orchestrator, and makes no
network call. -/
theorem c7_frame (w : World) (s : Store) (input : SendMessageInput) :
    (sendMessage w s input).netCalls ≤ 1 ∧
    (sendMessage w s input).store.msgs.length ≤ s.msgs.length + 2 ∧
    ((sendMessage w s input).result.isOk = true →
      (sendMessage w s input).store.msgs.length = s.msgs.length + 2) ∧
    (w.userWriteOk = false →
      (sendMessage w s input).store = s ∧ (sendMessage w s input).orchCalls = 0) ∧
    (∀ content : String, (sendMessageInputSchema content).isOk = false →
      (sendTurn w s content).store = s ∧ (sendTurn w s content).orchCalls = 0 ∧
      (sendTurn w s content).netCalls = 0) := by
  have hnet := chatGraphInvoke_net_le w (pipelineHistory input)
  refine ⟨?_, ?_, ?_, ?_, ?_⟩
  · unfold sendMessage
    split
    · exact Nat.zero_le 1
    · split
      · next heq => rw [heq] at hnet; simpa using hnet
      · next heq =>
          rw [heq] at hnet
          split <;> simpa using hnet
  · unfold sendMessage
    split
    · simp
    · next u s1 hdb =>
        obtain ⟨hm, hs1⟩ := dbInsert_ok_eq hdb
        split
        · subst hs1; simp
        · split
          · next heq => subst hs1; simp
          · next b s2 hdb2 =>
              obtain ⟨hb2, hs2⟩ := dbInsert_ok_eq hdb2
              subst hs1 hs2
              simp
  · unfold sendMessage
    split
    · intro h; simp [Except.isOk, Except.toBool] at h
    · next u s1 hdb =>
        obtain ⟨hm, hs1⟩ := dbInsert_ok_eq hdb
        split
        · intro h; simp [Except.isOk, Except.toBool] at h
        · split
          · intro h; simp [Except.isOk, Except.toBool] at h
          · next b s2 hdb2 =>
              obtain ⟨hb2, hs2⟩ := dbInsert_ok_eq hdb2
              subst hs1 hs2
              intro _
              simp
  · intro h
    unfold sendMessage
    simp [dbInsert, h]
  · intro content hbad
    unfold sendTurn
    rcases hsch : sendMessageInputSchema content with e | inp
    · exact ⟨rfl, rfl, rfl⟩
    · rw [hsch] at hbad
      simp [Except.isOk, Except.toBool] at hbad

theorem c7_frame_witness :
    (sendMessage testWorld emptyStore ⟨"hi"⟩).netCalls ≤ 1 ∧
    (sendMessage testWorld emptyStore ⟨"hi"⟩).store.msgs.length =
      emptyStore.msgs.length + 2 :=
  ⟨(c7_frame testWorld emptyStore ⟨"hi"⟩).1,
   (c7_frame testWorld emptyStore ⟨"hi"⟩).2.2.1 (by decide)⟩

/-- C8 (counterexample): the claim says whitespace-only content (empty after
trimming) is rejected with a validation error and nothing is written; the
schema checks the untrimmed length, so a single space passes validation and
the pipeline persists two messages. -/
theorem c8_whitespace_cex :
    sendMessageInputSchema " " = .ok ⟨" "⟩ ∧
    jsTrim " " = "" ∧
    (sendTurn testWorld emptyStore " ").result.isOk = true ∧
    (sendTurn testWorld emptyStore " ").store.msgs.length = 2 := by
  decide

/-- C8 (amended): only content whose untrimmed length is 0 or exceeds 1000
characters fails: `sendTurn` then fails with a validation error, leaves the
store unchanged, never invokes the orchestrator, and makes no network call.
Whitespace-only content passes validation and is persisted. -/
theorem c8_validation_bounds (w : World) (s : Store) (content : String)
    (h : content.length = 0 ∨ content.length > 1000) :
    (∃ m, (sendTurn w s content).result = .error (.validationError m)) ∧
    (sendTurn w s content).store = s ∧
    (sendTurn w s content).orchCalls = 0 ∧
    (sendTurn w s content).netCalls = 0 := by
  have hv : ∃ m, sendMessageInputSchema content = .error (.validationError m) := by
    unfold sendMessageInputSchema
    rcases h with h | h
    · exact ⟨_, if_pos (by omega)⟩
    · rw [if_neg (by omega)]
      exact ⟨_, if_pos (by omega)⟩
  obtain ⟨m, hm⟩ := hv
  unfold sendTurn
  simp only [hm]
  exact ⟨⟨m, rfl⟩, by trivial, by trivial, by trivial⟩

theorem c8_validation_bounds_witness :
    (∃ m, (sendTurn testWorld emptyStore "").result = .error (.validationError m)) ∧
    (sendTurn testWorld emptyStore "").store = emptyStore ∧
    (sendTurn testWorld emptyStore "").orchCalls = 0 ∧
    (sendTurn testWorld emptyStore "").netCalls = 0 :=
  c8_validation_bounds testWorld emptyStore "" (Or.inl (by decide))

/-- C9: the history handed to the chat graph is exactly the one-element list
holding the current input as a human message — no previously persisted
conversation is loaded — and consequently the returned message contents are
identical across any two store states. -/
theorem c9_history_is_input_only (w : World) (s t : Store)
    (input : SendMessageInput) :
    pipelineHistory input = [⟨input.content, "human"⟩] ∧
    (pipelineHistory input).length = 1 ∧
    (sendMessage w s input).result.map
        (fun r => (r.userMessage.content, r.botResponse.content)) =
      (sendMessage w t input).result.map
        (fun r => (r.userMessage.content, r.botResponse.content)) := by
  refine ⟨rfl, rfl, ?_⟩
  unfold sendMessage
  rcases hu : w.userWriteOk
  · simp [dbInsert]
  · simp only [dbInsert, if_true]
    rcases hg : chatGraphInvoke w (pipelineHistory input) with ⟨r, n⟩
    rcases r with e | merged
    · simp
    · rcases hb : w.botWriteOk <;> simp [Except.map]

/-- C10: `chatInvoke` reads the last history element without an emptiness
guard; the pipeline history always contains the user message, and on any
non-empty history the call returns a value, while a direct call with an empty
history throws in the test-mode branch and in the failure (fallback) branch. -/
theorem c10_unguarded_last (w : World) (msgs : List BaseMessage)
    (input : SendMessageInput) :
    pipelineHistory input ≠ [] ∧
    (msgs ≠ [] → ∃ ai n, chatInvoke w msgs = (.ok ai, n)) ∧
    (w.testMode = true → (chatInvoke w []).1 = .error .typeError) ∧
    (w.testMode = false → providerFailure w.fetch = true →
      (chatInvoke w []).1 = .error .typeError) := by
  refine ⟨by simp [pipelineHistory], ?_, ?_, ?_⟩
  · intro hne
    obtain ⟨ai, n, h, _, _⟩ := chatInvoke_ok_of_ne_nil w msgs hne
    exact ⟨ai, n, h⟩
  · intro htm
    unfold chatInvoke
    simp [htm]
  · intro htm hf
    unfold chatInvoke
    rw [htm]
    rcases hfe : w.fetch with _ | ⟨ok, data⟩
    · simp
    · rw [hfe] at hf
      unfold providerFailure at hf
      rcases ok
      · simp
      · simp only [Bool.not_true, Bool.false_or] at hf
        unfold invalidPayload at hf
        rcases hc : data.choices with _ | ⟨_ | ⟨c, rest⟩⟩
        · simp [hc]
        · simp [hc]
        · rw [hc] at hf
          simp only at hf
          rcases hm : c.msg with _ | m
          · simp [hc, hm]
          · rw [hm] at hf
            simp at hf

theorem c10_unguarded_last_witness :
    (chatInvoke testWorld []).1 = .error .typeError ∧
    (∃ ai n, chatInvoke testWorld [⟨"hi", "human"⟩] = (.ok ai, n)) :=
  ⟨(c10_unguarded_last testWorld [] ⟨"hi"⟩).2.2.1 rfl,
   (c10_unguarded_last testWorld [⟨"hi", "human"⟩] ⟨"hi"⟩).2.1 (by decide)⟩

end WebChat
